import Mathlib

/-!
Verification development for the AlphaFold3 batch runner
(`scripts/af3_runner.py`): a shallow embedding of its orchestration
logic — accelerator detection, round-robin device assignment,
per-task subprocess execution and outcome classification, result
collection, summary reporting and the top-level control flow — with
theorems about the behaviour of those functions.  External effects
(the filesystem listing, JSON validation which reads file contents,
the spawned process, the thread pool's completion order) enter the
model as explicit parameters.
-/

/-- Python `os.path.basename`: the part of the path after the final slash. -/
def pyBasename (p : String) : String :=
  String.mk ((p.data.reverse.takeWhile (fun c => c != '/')).reverse)

/-- Python `str.endswith(suffix)`. -/
def pyEndsWith (s suffix : String) : Bool :=
  s.data.reverse.take suffix.data.length == suffix.data.reverse

/-- Python `os.path.splitext(cs)[0]`: drop everything from the last dot on,
unless every character before that last dot is itself a dot (so names such
as `".json"` or `"..."` keep their dots, as in CPython). -/
def splitextRoot (cs : List Char) : List Char :=
  match cs.reverse.findIdx? (fun c => c == '.') with
  | none => cs
  | some k =>
    let i := cs.length - 1 - k
    if (cs.take i).all (fun c => c == '.') then cs else cs.take i

/-- `base_name = os.path.splitext(os.path.basename(json_file))[0]`
(af3_runner.py line 124; the same expression recurs at line 303). -/
def sampleName (p : String) : String :=
  String.mk (splitextRoot (pyBasename p).data)

/-- Simplified `os.path.join` for the relative-path shapes the runner uses. -/
def pathJoin (a b : String) : String :=
  if pyEndsWith a "/" then a ++ b else a ++ "/" ++ b

/-- Observable behaviour of one spawned external prediction process, as seen
by `run_single_prediction`: either `subprocess.run` completes (wall-clock
runtime, return code, captured stderr text), or the spawn/wait machinery
raises an exception carrying a message. -/
inductive ProcBehavior where
  | runs (runtimeSeconds : Nat) (returncode : Int) (stderr : String)
  | raises (msg : String)
  deriving DecidableEq

/-- The fixed ceiling passed as `timeout=3600` to `subprocess.run`
(af3_runner.py line 157).  It is a hard-coded literal: no command-line
option feeds it. -/
def subprocessTimeoutSeconds : Nat := 3600

/-- The result dictionary returned by `run_single_prediction`.  Keys that are
present only on some branches (`output_dir`, `duration`, `error`) are
`Option`-valued; `status`, `sample` and `gpu_info` are set on every branch. -/
structure PredResult where
  status : String
  sample : String
  output_dir : Option String
  duration : Option Nat
  errText : Option String
  gpu_info : String
  deriving DecidableEq

/-- `run_single_prediction` (af3_runner.py lines 104-198).  The output
directory is created, the command invoked with the per-task environment and
`timeout=3600`; completion within the ceiling with return code 0 yields
`status = "success"` (with `duration` and `output_dir`), a nonzero return
code yields `status = "failed"` (with `duration` and the stderr text),
`subprocess.TimeoutExpired` yields `status = "timeout"` (no duration), and
any other exception is caught and yields `status = "error"` (no duration).
The wall-clock duration recorded on completion is the process runtime. -/
def run_single_prediction (json_file output_dir : String) (gpu_id : Option Nat)
    (behavior : ProcBehavior) : PredResult :=
  let base_name := sampleName json_file
  let job_output_dir := pathJoin output_dir base_name
  let gpu_info := match gpu_id with
    | some g => "GPU " ++ toString g
    | none => "CPU"
  match behavior with
  | .runs rt rc se =>
    if subprocessTimeoutSeconds < rt then
      { status := "timeout", sample := base_name, output_dir := none,
        duration := none, errText := some "Prediction timeout", gpu_info := gpu_info }
    else if rc = 0 then
      { status := "success", sample := base_name, output_dir := some job_output_dir,
        duration := some rt, errText := none, gpu_info := gpu_info }
    else
      { status := "failed", sample := base_name, output_dir := none,
        duration := some rt, errText := some se, gpu_info := gpu_info }
  | .raises m =>
      { status := "error", sample := base_name, output_dir := none,
        duration := none, errText := some m, gpu_info := gpu_info }

/-- A process environment, as a key/value association list (first binding of
a key wins on lookup). -/
abbrev EnvMap : Type := List (String × String)

/-- Dictionary lookup in an environment. -/
def envGet (e : EnvMap) (k : String) : Option String :=
  (e.find? (fun p => p.1 == k)).map (fun p => p.2)

/-- Dictionary update `env[k] = v`. -/
def envSet (e : EnvMap) (k v : String) : EnvMap :=
  (k, v) :: e.filter (fun p => p.1 != k)

/-- Dictionary removal `env.pop(k, None)`. -/
def envPop (e : EnvMap) (k : String) : EnvMap :=
  e.filter (fun p => p.1 != k)

/-- The per-task environment built at af3_runner.py lines 130-137:
`env = os.environ.copy()`, then `env['CUDA_VISIBLE_DEVICES'] = str(gpu_id)`
when a device is assigned, else `env.pop('CUDA_VISIBLE_DEVICES', None)`. -/
def taskEnv (os_environ : EnvMap) (gpu_id : Option Nat) : EnvMap :=
  match gpu_id with
  | some g => envSet os_environ "CUDA_VISIBLE_DEVICES" (toString g)
  | none => envPop os_environ "CUDA_VISIBLE_DEVICES"

/-- The environment effect of one `run_single_prediction` call: the first
component is the environment handed to the spawned process, the second is
the process-wide `os.environ` after the call.  The source mutates only the
copy made at line 131 and never writes `os.environ` itself, so the shared
map comes back unchanged. -/
def run_single_prediction_env (os_environ : EnvMap) (gpu_id : Option Nat) :
    EnvMap × EnvMap :=
  (taskEnv os_environ gpu_id, os_environ)

/-- What the `nvidia-smi --query-gpu=name --format=csv,noheader` invocation
at af3_runner.py line 44 can do: the binary may be absent
(`FileNotFoundError`), or it runs and produces a return code and stdout
text (one device name per line), here kept as a character list. -/
inductive QueryOutcome where
  | notFound
  | ran (returncode : Int) (stdout : List Char)
  deriving DecidableEq

/-- Python's whitespace set for `str.strip()` (ASCII fragment). -/
def pyIsSpace (c : Char) : Bool :=
  c == ' ' || c == '\t' || c == '\n' || c == '\r' || c == '\x0b' || c == '\x0c'

/-- Python `str.strip()`: remove leading and trailing whitespace. -/
def pyStrip (l : List Char) : List Char :=
  ((l.dropWhile pyIsSpace).reverse.dropWhile pyIsSpace).reverse

/-- Python `str.split('\n')`: split at every newline, keeping empty pieces;
on the empty string this yields `[""]`, a one-element list. -/
def pySplitNl : List Char → List (List Char)
  | [] => [[]]
  | c :: rest =>
    if c = '\n' then [] :: pySplitNl rest
    else
      match pySplitNl rest with
      | [] => [[c]]
      | h :: t => (c :: h) :: t

/-- `detect_gpu_count` (af3_runner.py lines 41-52): when `nvidia-smi` is
absent the `FileNotFoundError` handler returns 0; when it runs with return
code 0 the count is `len(result.stdout.strip().split('\n'))`; any nonzero
return code falls through to `return 0`. -/
def detect_gpu_count (q : QueryOutcome) : Nat :=
  match q with
  | .notFound => 0
  | .ran rc out => if rc = 0 then (pySplitNl (pyStrip out)).length else 0

/-- The task-preparation loop of `run_batch_predictions` (af3_runner.py
lines 250-261): walk the validated file list keeping a running `gpu_index`;
when the pool is nonempty assign `gpu_index % gpu_count` and increment,
otherwise assign no device. -/
def assignDevicesFrom (gpu_count : Nat) : List String → Nat → List (String × Option Nat)
  | [], _ => []
  | f :: rest, gpu_index =>
    if gpu_count > 0 then
      (f, some (gpu_index % gpu_count)) :: assignDevicesFrom gpu_count rest (gpu_index + 1)
    else
      (f, none) :: assignDevicesFrom gpu_count rest gpu_index

/-- The full task list built before dispatch: `gpu_index` starts at 0. -/
def assignDevices (json_files : List String) (gpu_count : Nat) :
    List (String × Option Nat) :=
  assignDevicesFrom gpu_count json_files 0

/-- Python `x or d` for `os.cpu_count() or 4`: `None` and `0` give the
default. -/
def pyOrDefault (o : Option Nat) (d : Nat) : Nat :=
  match o with
  | some c => if c = 0 then d else c
  | none => d

/-- The worker-pool size chosen at af3_runner.py lines 266-271:
`min(max_concurrent, gpu_count)` in GPU mode, else
`min(max_concurrent, os.cpu_count() or 4)`. -/
def max_workers (max_concurrent gpu_count : Nat) (cpu_count : Option Nat) : Nat :=
  if gpu_count > 0 then min max_concurrent gpu_count
  else min max_concurrent (pyOrDefault cpu_count 4)

/-- The option strings registered on the `argparse` parser in `main`
(af3_runner.py lines 377-408). -/
def parserOptionStrings : List String :=
  ["--input_dir", "--output_dir", "--af3_script", "--max_concurrent",
   "--max_template_date", "--verbose", "-v"]

/-- The record appended to `results['errors']` by the exception handler at
af3_runner.py lines 300-305. -/
structure TaskErr where
  sample : String
  errText : String
  deriving DecidableEq

/-- The `results` dictionary of `run_batch_predictions`: exactly three
buckets, `success`, `failed` and `errors` (af3_runner.py line 264). -/
structure Results where
  success : List PredResult
  failed : List PredResult
  errors : List TaskErr
  deriving DecidableEq

/-- Resolving one completed future: either `future.result()` returns the
`run_single_prediction` dictionary, or it raises and the handler records
the sample name and exception text. -/
def TaskRes : Type := PredResult ⊕ TaskErr

/-- One iteration of the `as_completed` loop (af3_runner.py lines 290-305):
a returned result with `status == 'success'` is appended to the success
bucket, any other returned result to the failed bucket, and a raised
exception to the errors bucket. -/
def collectStep (acc : Results) (res : TaskRes) : Results :=
  match res with
  | .inl r =>
    if r.status = "success" then
      { acc with success := acc.success ++ [r] }
    else
      { acc with failed := acc.failed ++ [r] }
  | .inr e => { acc with errors := acc.errors ++ [e] }

/-- The whole collection loop, folded over the completion-order list of
resolved outcomes, starting from empty buckets. -/
def collectResults (resolved : List TaskRes) : Results :=
  resolved.foldl collectStep ⟨[], [], []⟩

/-- The externally determined inputs of one `run_batch_predictions` call:
whether the input directory exists, the `os.listdir` entries paired with
the (file-reading, hence external) verdict of `validate_json_file` on each,
the outcome of the `nvidia-smi` query, the host CPU count, the behaviour of
the external process for each input file, and whether resolving a task's
future raises (and with what message). -/
structure BatchEnv where
  inputDirExists : Bool
  listdir : List (String × Bool)
  gpuQuery : QueryOutcome
  cpu_count : Option Nat
  behavior : String → ProcBehavior
  futureExc : String → Option String

/-- The validated file list built at af3_runner.py lines 229-236: keep the
directory entries ending in `.json` that pass validation, joined with the
input directory. -/
def json_files (listdir : List (String × Bool)) (input_dir : String) : List String :=
  (listdir.filter (fun e => pyEndsWith e.1 ".json" && e.2)).map
    (fun e => pathJoin input_dir e.1)

/-- The `.json` entries that fail validation and are skipped with a warning
(af3_runner.py line 236). -/
def rejectedFiles (listdir : List (String × Bool)) : List String :=
  (listdir.filter (fun e => pyEndsWith e.1 ".json" && !e.2)).map (fun e => e.1)

/-- All `.json` directory entries: the candidates considered at all. -/
def jsonCandidates (listdir : List (String × Bool)) : List (String × Bool) :=
  listdir.filter (fun e => pyEndsWith e.1 ".json")

/-- The task list `run_batch_predictions` prepares: validated files with
round-robin devices from the detected pool. -/
def af3tasks (env : BatchEnv) (input_dir : String) : List (String × Option Nat) :=
  assignDevices (json_files env.listdir input_dir) (detect_gpu_count env.gpuQuery)

/-- Resolving the future of one task `(json_file, gpu_id)`: an exception
while resolving yields the handler's error record (af3_runner.py line 303),
otherwise the `run_single_prediction` result for that file. -/
def resolveTask (env : BatchEnv) (output_dir : String)
    (t : String × Option Nat) : TaskRes :=
  match env.futureExc t.1 with
  | some m => .inr ⟨sampleName t.1, m⟩
  | none => .inl (run_single_prediction t.1 output_dir t.2 (env.behavior t.1))

/-- `run_batch_predictions` (af3_runner.py lines 201-307) as a function of
its external inputs and of `completed`, the completion-order permutation of
the task list delivered by `as_completed`.  A missing input directory or an
empty validated file list short-circuits to empty buckets (lines 223-226,
238-240); otherwise the collection loop runs over the completed tasks. -/
def run_batch_predictions (env : BatchEnv) (input_dir output_dir : String)
    (completed : List (String × Option Nat)) : Results :=
  if env.inputDirExists = false then ⟨[], [], []⟩
  else if json_files env.listdir input_dir = [] then ⟨[], [], []⟩
  else collectResults (completed.map (resolveTask env output_dir))

/-- The count totals of a `results` dictionary, as computed at
af3_runner.py line 314. -/
def totalTasks (results : Results) : Nat :=
  results.success.length + results.failed.length + results.errors.length

/-- The report written by `generate_summary_report`: header counts, the
success rate, and one listing section per bucket. -/
structure SummaryReport where
  total_tasks : Nat
  success_count : Nat
  failed_count : Nat
  error_count : Nat
  success_rate : ℚ
  success_section : List PredResult
  failed_section : List PredResult
  error_section : List TaskErr
  deriving DecidableEq

/-- `generate_summary_report` (af3_runner.py lines 310-358).  The success
rate is written as `success_count/total_tasks*100` unconditionally (line
333): when `total_tasks` is 0 Python raises `ZeroDivisionError` there —
after the report file has been opened and the header counts written — so
the report is never completed; this is modelled as `Except.error`.  With a
positive total the full report is produced. -/
def generate_summary_report (results : Results) : Except String SummaryReport :=
  let total_tasks := totalTasks results
  let success_count := results.success.length
  let failed_count := results.failed.length
  let error_count := results.errors.length
  if total_tasks = 0 then
    Except.error "ZeroDivisionError"
  else
    Except.ok
      { total_tasks := total_tasks, success_count := success_count,
        failed_count := failed_count, error_count := error_count,
        success_rate := (success_count : ℚ) / (total_tasks : ℚ) * 100,
        success_section := results.success,
        failed_section := results.failed,
        error_section := results.errors }

/-- Observable outcome of a `main` run: the interpreter exit code, whether
the report file was created at all, and whether it was written to
completion. -/
structure MainOut where
  exitCode : Nat
  reportFileCreated : Bool
  reportCompleted : Bool
  deriving DecidableEq

/-- `main` (af3_runner.py lines 361-441).  A missing `--af3_script` path
exits cleanly with code 1 before anything is dispatched (lines 418-420) and
before any report file exists.  Otherwise `run_batch_predictions` runs and
`generate_summary_report` is called: it creates the report file, and if it
raises `ZeroDivisionError` the exception propagates out of `main`, so the
interpreter exits with code 1 leaving a partially written report; on
success `main` prints its own summary (the same division, safe since the
total is positive) and returns, exiting with code 0. -/
def mainRun (env : BatchEnv) (af3ScriptExists : Bool)
    (input_dir output_dir : String)
    (completed : List (String × Option Nat)) : MainOut :=
  if af3ScriptExists = false then ⟨1, false, false⟩
  else
    let results := run_batch_predictions env input_dir output_dir completed
    match generate_summary_report results with
    | .error _ => ⟨1, true, false⟩
    | .ok _ => ⟨0, true, true⟩

/-- Which success-bucket entry (if any) one resolved outcome contributes:
mirrors the `result['status'] == 'success'` test of the collection loop. -/
def succOf : TaskRes → Option PredResult
  | .inl r => if r.status = "success" then some r else none
  | .inr _ => none

/-- Which failed-bucket entry (if any) one resolved outcome contributes:
every returned result whose status is not `success` — including statuses
`timeout` and `error` — goes here. -/
def failOf : TaskRes → Option PredResult
  | .inl r => if r.status = "success" then none else some r
  | .inr _ => none

/-- Which errors-bucket entry (if any) one resolved outcome contributes. -/
def excOf : TaskRes → Option TaskErr
  | .inr e => some e
  | .inl _ => none

/-- Join device names with newlines, as `nvidia-smi --format=csv,noheader`
prints one device name per line. -/
def joinNl : List (List Char) → List Char
  | [] => []
  | [n] => n
  | n :: m :: rest => n ++ '\n' :: joinNl (m :: rest)

/-- How many resolved outcomes carry the given `status` string. -/
def countStatus (s : String) (resolved : List TaskRes) : Nat :=
  resolved.countP (fun x => match x with
    | .inl r => r.status == s
    | .inr _ => false)

/-- How many tasks raised while their outcome was being resolved. -/
def countExc (resolved : List TaskRes) : Nat :=
  resolved.countP (fun x => match x with
    | .inr _ => true
    | .inl _ => false)

/-- A concrete batch environment: one valid JSON job, one JSON file failing
validation, one non-JSON entry, a one-GPU host, an external process that
succeeds quickly, no resolution exceptions. -/
def c7Batch : BatchEnv :=
  { inputDirExists := true,
    listdir := [("a.json", true), ("b.json", false), ("c.txt", true)],
    gpuQuery := .ran 0 ['g'],
    cpu_count := some 8,
    behavior := fun _ => .runs 10 0 "",
    futureExc := fun _ => none }

/-- A concrete batch environment: one valid JSON job whose external process
exits with code 2 (a per-job failure), CPU-only host. -/
def c6Batch : BatchEnv :=
  { inputDirExists := true,
    listdir := [("a.json", true)],
    gpuQuery := .notFound,
    cpu_count := some 8,
    behavior := fun _ => .runs 10 2 "boom",
    futureExc := fun _ => none }

/-- A concrete successful prediction record. -/
def onePred : PredResult :=
  { status := "success", sample := "a", output_dir := none,
    duration := some 5, errText := none, gpu_info := "CPU" }

/-- A results dictionary holding exactly one succeeded task. -/
def oneResults : Results := ⟨[onePred], [], []⟩

/-! ## Helper lemmas -/

theorem run_single_status_cases (f o : String) (g : Option Nat) (b : ProcBehavior) :
    (run_single_prediction f o g b).status = "success" ∨
    (run_single_prediction f o g b).status = "failed" ∨
    (run_single_prediction f o g b).status = "timeout" ∨
    (run_single_prediction f o g b).status = "error" := by
  cases b with
  | runs rt rc se =>
    simp only [run_single_prediction]
    split_ifs <;> simp
  | raises m => simp [run_single_prediction]

theorem run_single_sample (f o : String) (g : Option Nat) (b : ProcBehavior) :
    (run_single_prediction f o g b).sample = sampleName f := by
  cases b with
  | runs rt rc se =>
    simp only [run_single_prediction]
    split_ifs <;> rfl
  | raises m => rfl

theorem run_single_duration_iff (f o : String) (g : Option Nat) (b : ProcBehavior) :
    (run_single_prediction f o g b).duration.isSome ↔
      ((run_single_prediction f o g b).status = "success" ∨
       (run_single_prediction f o g b).status = "failed") := by
  cases b with
  | runs rt rc se =>
    simp only [run_single_prediction]
    split_ifs <;> simp
  | raises m => simp [run_single_prediction]

theorem run_single_gpu_info (f o : String) (g : Option Nat) (b : ProcBehavior) :
    (g = none ∧ (run_single_prediction f o g b).gpu_info = "CPU") ∨
    (∃ d, g = some d ∧
      (run_single_prediction f o g b).gpu_info = "GPU " ++ toString d) := by
  cases g with
  | none =>
    left
    refine ⟨rfl, ?_⟩
    cases b with
    | runs rt rc se =>
      simp only [run_single_prediction]
      split_ifs <;> rfl
    | raises m => rfl
  | some d =>
    right
    refine ⟨d, rfl, ?_⟩
    cases b with
    | runs rt rc se =>
      simp only [run_single_prediction]
      split_ifs <;> rfl
    | raises m => rfl

theorem run_single_timeout_status (f o : String) (g : Option Nat)
    (rt : Nat) (rc : Int) (se : String) (h : subprocessTimeoutSeconds < rt) :
    (run_single_prediction f o g (.runs rt rc se)).status = "timeout" := by
  simp [run_single_prediction, h]

theorem envGet_envSet (e : EnvMap) (k v : String) :
    envGet (envSet e k v) k = some v := by
  simp [envGet, envSet, List.find?]

theorem envGet_envPop (e : EnvMap) (k : String) :
    envGet (envPop e k) k = none := by
  have hfind : (envPop e k).find? (fun p => p.1 == k) = none := by
    rw [List.find?_eq_none]
    intro x hx
    have hmem := List.mem_filter.mp hx
    simpa using hmem.2
  simp [envGet, hfind]

/-! ## Claim theorems -/

/-- C10: for every invocation in which the per-job output directory can be
created, `run_single_prediction` returns (never raises — every exception
inside the spawn/wait block is caught) a record whose status is one of
`success`, `failed`, `timeout`, `error`; the record always carries `sample`
(the input's base name) and `gpu_info` (the assigned device or `CPU`), and
the `duration` key is present exactly when the status is `success` or
`failed`. -/
theorem run_single_prediction_total_shape (f o : String) (g : Option Nat)
    (b : ProcBehavior) :
    ((run_single_prediction f o g b).status = "success" ∨
     (run_single_prediction f o g b).status = "failed" ∨
     (run_single_prediction f o g b).status = "timeout" ∨
     (run_single_prediction f o g b).status = "error") ∧
    ((run_single_prediction f o g b).duration.isSome ↔
      ((run_single_prediction f o g b).status = "success" ∨
       (run_single_prediction f o g b).status = "failed")) ∧
    (run_single_prediction f o g b).sample = sampleName f ∧
    ((g = none ∧ (run_single_prediction f o g b).gpu_info = "CPU") ∨
     (∃ d, g = some d ∧
       (run_single_prediction f o g b).gpu_info = "GPU " ++ toString d)) :=
  ⟨run_single_status_cases f o g b, run_single_duration_iff f o g b,
   run_single_sample f o g b, run_single_gpu_info f o g b⟩

/-- C9: the per-task environment handed to the spawned process carries the
device-selection variable set to the assigned device (or removed in CPU
mode), while the shared process-wide environment map comes back unchanged
from the call — the source only ever mutates the copy made by
`os.environ.copy()`. -/
theorem per_task_env_isolated (os_environ : EnvMap) (gpu_id : Option Nat) :
    (run_single_prediction_env os_environ gpu_id).2 = os_environ ∧
    (∀ d, gpu_id = some d →
      envGet (run_single_prediction_env os_environ gpu_id).1 "CUDA_VISIBLE_DEVICES"
        = some (toString d)) ∧
    (gpu_id = none →
      envGet (run_single_prediction_env os_environ gpu_id).1 "CUDA_VISIBLE_DEVICES"
        = none) := by
  refine ⟨rfl, ?_, ?_⟩
  · intro d hd
    subst hd
    exact envGet_envSet os_environ _ _
  · intro hnone
    subst hnone
    exact envGet_envPop os_environ _

theorem per_task_env_isolated_witness :
    (run_single_prediction_env [("PATH", "/usr/bin")] (some 1)).2
      = [("PATH", "/usr/bin")] ∧
    envGet (run_single_prediction_env [("PATH", "/usr/bin")] (some 1)).1
      "CUDA_VISIBLE_DEVICES" = some (toString 1) :=
  ⟨(per_task_env_isolated [("PATH", "/usr/bin")] (some 1)).1,
   (per_task_env_isolated [("PATH", "/usr/bin")] (some 1)).2.1 1 rfl⟩

/-- C8 counterexample: the command line accepts no `--job-timeout-seconds`
option — the parser registers only the seven option strings listed in
`parserOptionStrings`, so the timeout ceiling is not configurable. -/
theorem no_job_timeout_option : "--job-timeout-seconds" ∉ parserOptionStrings := by
  decide

/-- C8 (amended): the dispatcher waits at most a fixed, hard-coded ceiling
of 3600 seconds per job (the literal `timeout=3600` of `subprocess.run`);
there is no command-line option to change it; on exceeding the ceiling the
process is terminated and the job is marked with status `timeout` and no
duration. -/
theorem timeout_ceiling_fixed :
    subprocessTimeoutSeconds = 3600 ∧
    ∀ (f o : String) (g : Option Nat) (rt : Nat) (rc : Int) (se : String),
      subprocessTimeoutSeconds < rt →
      (run_single_prediction f o g (.runs rt rc se)).status = "timeout" ∧
      (run_single_prediction f o g (.runs rt rc se)).duration = none := by
  refine ⟨rfl, ?_⟩
  intro f o g rt rc se h
  refine ⟨run_single_timeout_status f o g rt rc se h, ?_⟩
  simp [run_single_prediction, h]

theorem timeout_ceiling_fixed_witness :
    subprocessTimeoutSeconds < 3601 ∧
    (run_single_prediction "a.json" "out" (some 0) (.runs 3601 0 "")).status
      = "timeout" :=
  ⟨by decide,
   (timeout_ceiling_fixed.2 "a.json" "out" (some 0) 3601 0 "" (by decide)).1⟩

/-- C4: the worker-pool size is `min(max_concurrent, gpu_count)` when the
device pool is nonempty, and `min(max_concurrent, cpu_count)` when it is
empty and the host reports a (positive) CPU count. -/
theorem max_workers_bound (M D : Nat) (C : Option Nat) :
    (0 < D → max_workers M D C = min M D) ∧
    (D = 0 → ∀ c, C = some c → 0 < c → max_workers M D C = min M c) := by
  constructor
  · intro hD
    simp [max_workers, hD]
  · intro hD c hC hc
    subst hD
    subst hC
    simp [max_workers, pyOrDefault, hc.ne']

theorem max_workers_bound_witness :
    max_workers 4 2 (some 8) = min 4 2 ∧ max_workers 4 0 (some 8) = min 4 8 :=
  ⟨(max_workers_bound 4 2 (some 8)).1 (by decide),
   (max_workers_bound 4 0 (some 8)).2 rfl 8 rfl (by decide)⟩

theorem assignDevicesFrom_getElem (D : Nat) (files : List String) (idx i : Nat)
    (h : i < files.length) :
    (assignDevicesFrom D files idx)[i]? =
      some (files.get ⟨i, h⟩, if 0 < D then some ((idx + i) % D) else none) := by
  induction files generalizing idx i with
  | nil => simp at h
  | cons f rest ih =>
    cases i with
    | zero =>
      by_cases hD : 0 < D <;> simp [assignDevicesFrom, hD]
    | succ n =>
      have h' : n < rest.length := Nat.lt_of_succ_lt_succ (by simpa using h)
      have harith : idx + 1 + n = idx + (n + 1) := by omega
      by_cases hD : 0 < D <;>
        simp [assignDevicesFrom, hD, ih (idx + 1) n h', ih idx n h', harith]

/-- C3: in the prepared task list, the job at 0-based position `i` of the
validated file list is assigned device `i mod D` when the device pool has
size `D > 0`, and no device when `D = 0`. -/
theorem device_assignment_round_robin (files : List String) (D i : Nat)
    (h : i < files.length) :
    (assignDevices files D)[i]? =
      some (files.get ⟨i, h⟩, if 0 < D then some (i % D) else none) := by
  simpa [assignDevices] using assignDevicesFrom_getElem D files 0 i h

theorem device_assignment_round_robin_witness :
    (2 : Nat) < (["a", "b", "c"] : List String).length ∧
    (assignDevices ["a", "b", "c"] 2)[2]? =
      some ("c", if 0 < 2 then some (2 % 2) else none) :=
  ⟨by decide, device_assignment_round_robin ["a", "b", "c"] 2 2 (by decide)⟩

theorem foldl_collectStep (resolved : List TaskRes) (acc : Results) :
    resolved.foldl collectStep acc =
      ⟨acc.success ++ resolved.filterMap succOf,
       acc.failed ++ resolved.filterMap failOf,
       acc.errors ++ resolved.filterMap excOf⟩ := by
  induction resolved generalizing acc with
  | nil => simp
  | cons x rest ih =>
    cases x with
    | inl r =>
      by_cases hs : r.status = "success" <;>
        simp [List.foldl_cons, collectStep, hs, ih, succOf, failOf, excOf]
    | inr e => simp [List.foldl_cons, collectStep, ih, succOf, failOf, excOf]

theorem collectResults_eq (resolved : List TaskRes) :
    collectResults resolved =
      ⟨resolved.filterMap succOf, resolved.filterMap failOf,
       resolved.filterMap excOf⟩ := by
  simp [collectResults, foldl_collectStep]

theorem filterMap_buckets_length (resolved : List TaskRes) :
    (resolved.filterMap succOf).length + (resolved.filterMap failOf).length +
      (resolved.filterMap excOf).length = resolved.length := by
  induction resolved with
  | nil => rfl
  | cons x rest ih =>
    cases x with
    | inl r =>
      by_cases hs : r.status = "success" <;>
        simp [List.filterMap_cons, succOf, failOf, excOf, hs] <;> omega
    | inr e =>
      simp [List.filterMap_cons, succOf, failOf, excOf]
      omega

theorem totalTasks_collectResults (resolved : List TaskRes) :
    totalTasks (collectResults resolved) = resolved.length := by
  rw [collectResults_eq]
  simpa [totalTasks] using filterMap_buckets_length resolved

/-- C2 counterexample: a task whose external process exceeds the timeout
ceiling gets status `timeout`, and the collector appends that outcome to
the `failed` bucket — it does not appear separately from the failed jobs,
and there is no TimedOut bucket at all. -/
theorem timed_out_task_lands_in_failed_bucket :
    (run_single_prediction "a.json" "out" (some 0) (.runs 3700 0 "")).status
      = "timeout" ∧
    (collectResults [Sum.inl (run_single_prediction "a.json" "out" (some 0)
        (.runs 3700 0 ""))]).failed
      = [run_single_prediction "a.json" "out" (some 0) (.runs 3700 0 "")] := by
  constructor <;> decide

/-- C2 (amended): the collector maintains exactly three buckets.  A
returned outcome with status `success` is appended to the success bucket;
any other returned outcome — statuses `failed`, `timeout` and `error` alike
— is appended to the failed bucket; an exception raised while resolving an
outcome is appended to the errors bucket.  In particular a task whose
external process exceeds the timeout ceiling (status `timeout`) is recorded
in the failed bucket. -/
theorem collector_three_buckets (resolved : List TaskRes) :
    (collectResults resolved).success = resolved.filterMap succOf ∧
    (collectResults resolved).failed = resolved.filterMap failOf ∧
    (collectResults resolved).errors = resolved.filterMap excOf ∧
    (∀ r : PredResult, Sum.inl r ∈ resolved → r.status ≠ "success" →
      r ∈ (collectResults resolved).failed) ∧
    (∀ (f o : String) (g : Option Nat) (rt : Nat) (rc : Int) (se : String),
      subprocessTimeoutSeconds < rt →
      Sum.inl (run_single_prediction f o g (.runs rt rc se)) ∈ resolved →
      run_single_prediction f o g (.runs rt rc se)
        ∈ (collectResults resolved).failed) := by
  have hfail : ∀ r : PredResult, Sum.inl r ∈ resolved → r.status ≠ "success" →
      r ∈ (collectResults resolved).failed := by
    intro r hmem hs
    rw [collectResults_eq]
    exact List.mem_filterMap.mpr ⟨Sum.inl r, hmem, by simp [failOf, hs]⟩
  refine ⟨by rw [collectResults_eq], by rw [collectResults_eq],
    by rw [collectResults_eq], hfail, ?_⟩
  intro f o g rt rc se hrt hmem
  refine hfail _ hmem ?_
  rw [run_single_timeout_status f o g rt rc se hrt]
  decide

theorem collector_three_buckets_witness :
    run_single_prediction "a.json" "out" none (.runs 10 2 "boom")
      ∈ (collectResults [Sum.inl (run_single_prediction "a.json" "out" none
          (.runs 10 2 "boom"))]).failed :=
  (collector_three_buckets _).2.2.2.1
    (run_single_prediction "a.json" "out" none (.runs 10 2 "boom"))
    (by simp) (by decide)

theorem pySplitNl_ne_nil (l : List Char) : pySplitNl l ≠ [] := by
  cases l with
  | nil => simp [pySplitNl]
  | cons c rest =>
    simp only [pySplitNl]
    split
    · simp
    · split <;> simp

theorem length_pySplitNl (l : List Char) :
    (pySplitNl l).length = l.count '\n' + 1 := by
  induction l with
  | nil => rfl
  | cons c rest ih =>
    by_cases hc : c = '\n'
    · subst hc
      simp [pySplitNl, List.count_cons, ih]
    · simp only [pySplitNl, if_neg hc]
      cases hr : pySplitNl rest with
      | nil => exact absurd hr (pySplitNl_ne_nil rest)
      | cons h t =>
        rw [hr] at ih
        simp only [List.length_cons] at ih ⊢
        simp [List.count_cons, hc]
        omega

theorem count_nl_joinNl : ∀ (names : List (List Char)), names ≠ [] →
    (∀ n ∈ names, ∀ c ∈ n, pyIsSpace c = false) →
    (joinNl names).count '\n' + 1 = names.length
  | [], h, _ => absurd rfl h
  | [n], _, hs => by
    have hnot : '\n' ∉ n := by
      intro hmem
      have := hs n (by simp) '\n' hmem
      simp [pyIsSpace] at this
    simp [joinNl, List.count_eq_zero.mpr hnot]
  | n :: m :: rest, _, hs => by
    have ih := count_nl_joinNl (m :: rest) (by simp)
      (fun x hx => hs x (by simp only [List.mem_cons] at hx ⊢; tauto))
    have hnot : '\n' ∉ n := by
      intro hmem
      have := hs n (by simp) '\n' hmem
      simp [pyIsSpace] at this
    show (n ++ '\n' :: joinNl (m :: rest)).count '\n' + 1 = (n :: m :: rest).length
    simp only [List.count_append, List.count_cons, List.count_eq_zero.mpr hnot,
      List.length_cons] at ih ⊢
    simp at ih ⊢
    omega

theorem dropWhile_pyIsSpace_eq_self (l : List Char)
    (h : ∀ c, l.head? = some c → pyIsSpace c = false) :
    l.dropWhile pyIsSpace = l := by
  cases l with
  | nil => rfl
  | cons c rest => simp [List.dropWhile_cons, h c rfl]

theorem pyStrip_eq_self (l : List Char)
    (h1 : ∀ c, l.head? = some c → pyIsSpace c = false)
    (h2 : ∀ c, l.getLast? = some c → pyIsSpace c = false) :
    pyStrip l = l := by
  unfold pyStrip
  rw [dropWhile_pyIsSpace_eq_self l h1,
    dropWhile_pyIsSpace_eq_self l.reverse
      (fun c hc => h2 c (by rwa [List.head?_reverse] at hc)),
    List.reverse_reverse]

theorem head?_joinNl (n : List Char) (rest : List (List Char)) (hn : n ≠ []) :
    (joinNl (n :: rest)).head? = n.head? := by
  cases rest with
  | nil => rfl
  | cons m rs =>
    show ((n ++ '\n' :: joinNl (m :: rs))).head? = n.head?
    cases n with
    | nil => exact absurd rfl hn
    | cons c cs => rfl

theorem getLast?_joinNl_mem : ∀ (names : List (List Char)), names ≠ [] →
    (∀ n ∈ names, n ≠ []) →
    ∃ n ∈ names, (joinNl names).getLast? = n.getLast?
  | [], h, _ => absurd rfl h
  | [n], _, _ => ⟨n, by simp, rfl⟩
  | n :: m :: rest, _, hne => by
    obtain ⟨x, hx, hlast⟩ := getLast?_joinNl_mem (m :: rest) (by simp)
      (fun y hy => hne y (by simp only [List.mem_cons] at hy ⊢; tauto))
    refine ⟨x, by simp only [List.mem_cons] at hx ⊢; tauto, ?_⟩
    show (n ++ '\n' :: joinNl (m :: rest)).getLast? = x.getLast?
    have hnil : (joinNl (m :: rest)).getLast? = x.getLast? := hlast
    have hxne : x ≠ [] := hne x (by simp only [List.mem_cons] at hx ⊢; tauto)
    have hsome : ∃ a, (joinNl (m :: rest)).getLast? = some a := by
      rw [hnil]
      cases hxl : x.getLast? with
      | none => exact absurd (List.getLast?_eq_none_iff.mp hxl) hxne
      | some a => exact ⟨a, rfl⟩
    obtain ⟨a, ha⟩ := hsome
    rw [List.getLast?_append, List.getLast?_cons, ha]
    rw [ha] at hnil
    simpa using hnil

/-- C5 counterexample: when the accelerator-query facility is present and
succeeds while reporting zero devices (return code 0, empty output),
`detect_gpu_count` returns 1, not 0: `''.strip().split('\n')` is `['']`,
a one-element list. -/
theorem detect_gpu_count_empty_success :
    detect_gpu_count (.ran 0 []) = 1 := by
  decide

/-- C5 (amended): `detect_gpu_count` returns 0 (not an error) when the
query facility is absent and when the query exits with a nonzero code; when
the query exits with code 0 it returns the number of lines of the stripped
output — which is `names.length` for a one-device-per-line listing of
`names.length ≥ 1` devices, but is still 1 (never 0) on empty output. -/
theorem detect_gpu_count_spec :
    detect_gpu_count .notFound = 0 ∧
    (∀ (rc : Int) (out : List Char), rc ≠ 0 → detect_gpu_count (.ran rc out) = 0) ∧
    (∀ out : List Char, 1 ≤ detect_gpu_count (.ran 0 out)) ∧
    (∀ names : List (List Char), names ≠ [] →
      (∀ n ∈ names, n ≠ [] ∧ ∀ c ∈ n, pyIsSpace c = false) →
      detect_gpu_count (.ran 0 (joinNl names)) = names.length) := by
  refine ⟨rfl, ?_, ?_, ?_⟩
  · intro rc out hrc
    simp [detect_gpu_count, hrc]
  · intro out
    simp only [detect_gpu_count, if_pos rfl]
    have := pySplitNl_ne_nil (pyStrip out)
    exact List.length_pos.mpr this
  · intro names hne hprop
    have hne' : ∀ n ∈ names, n ≠ [] := fun n h => (hprop n h).1
    have hns : ∀ n ∈ names, ∀ c ∈ n, pyIsSpace c = false :=
      fun n h => (hprop n h).2
    have hstrip : pyStrip (joinNl names) = joinNl names := by
      apply pyStrip_eq_self
      · intro c hc
        cases names with
        | nil => exact absurd rfl hne
        | cons n rest =>
          rw [head?_joinNl n rest (hne' n (by simp))] at hc
          have hmem : c ∈ n := by
            obtain ⟨ys, hys⟩ := List.head?_eq_some_iff.mp hc
            simp [hys]
          exact hns n (by simp) c hmem
      · intro c hc
        obtain ⟨x, hx, hlast⟩ := getLast?_joinNl_mem names hne hne'
        rw [hlast] at hc
        exact hns x hx c (List.mem_of_getLast?_eq_some hc)
    simp only [detect_gpu_count, if_pos rfl, hstrip, length_pySplitNl]
    exact count_nl_joinNl names hne hns

theorem detect_gpu_count_spec_witness :
    (1 : Int) ≠ 0 ∧ detect_gpu_count (.ran 1 ['g']) = 0 ∧
    detect_gpu_count (.ran 0 (joinNl [['g', '0'], ['g', '1']])) = 2 :=
  ⟨by decide, detect_gpu_count_spec.2.1 1 ['g'] (by decide),
   detect_gpu_count_spec.2.2.2 [['g', '0'], ['g', '1']] (by decide) (by decide)⟩

theorem map_fst_assignDevicesFrom (D : Nat) (files : List String) (idx : Nat) :
    (assignDevicesFrom D files idx).map Prod.fst = files := by
  induction files generalizing idx with
  | nil => rfl
  | cons f rest ih =>
    by_cases hD : 0 < D <;> simp [assignDevicesFrom, hD, ih]

theorem map_fst_assignDevices (files : List String) (D : Nat) :
    (assignDevices files D).map Prod.fst = files :=
  map_fst_assignDevicesFrom D files 0

theorem length_assignDevices (files : List String) (D : Nat) :
    (assignDevices files D).length = files.length := by
  have h := congrArg List.length (map_fst_assignDevices files D)
  simpa using h

theorem valid_plus_rejected (listdir : List (String × Bool)) (input_dir : String) :
    (json_files listdir input_dir).length + (rejectedFiles listdir).length
      = (jsonCandidates listdir).length := by
  simp only [json_files, rejectedFiles, jsonCandidates, List.length_map]
  induction listdir with
  | nil => rfl
  | cons e rest ih =>
    by_cases h1 : pyEndsWith e.1 ".json" = true <;> cases hb : e.2 <;>
      simp [List.filter_cons, h1, hb] <;> omega

theorem resolveTask_status_cases (env : BatchEnv) (o : String)
    (completed : List (String × Option Nat)) :
    ∀ r : PredResult, Sum.inl r ∈ completed.map (resolveTask env o) →
      r.status = "success" ∨ r.status = "failed" ∨
      r.status = "timeout" ∨ r.status = "error" := by
  intro r hr
  obtain ⟨t, ht, hres⟩ := List.mem_map.mp hr
  cases hexc : env.futureExc t.1 with
  | some m => simp [resolveTask, hexc] at hres
  | none =>
    simp only [resolveTask, hexc] at hres
    have heq := Sum.inl.inj hres
    rw [← heq]
    exact run_single_status_cases t.1 o t.2 (env.behavior t.1)

theorem countStatus_partition (resolved : List TaskRes)
    (h : ∀ r : PredResult, Sum.inl r ∈ resolved →
      r.status = "success" ∨ r.status = "failed" ∨
      r.status = "timeout" ∨ r.status = "error") :
    countStatus "success" resolved + countStatus "failed" resolved +
      countStatus "timeout" resolved + countStatus "error" resolved +
      countExc resolved = resolved.length := by
  induction resolved with
  | nil => rfl
  | cons x rest ih =>
    have ih' := ih (fun r hr => h r (List.mem_cons_of_mem _ hr))
    cases x with
    | inl r =>
      rcases h r (by simp) with hs | hs | hs | hs <;>
        simp only [countStatus, countExc, List.countP_cons, hs] at ih' ⊢ <;>
        simp <;> omega
    | inr e =>
      simp only [countStatus, countExc, List.countP_cons] at ih' ⊢
      simp
      omega

theorem resolveTask_sample_mem (env : BatchEnv) (input_dir o : String)
    (completed : List (String × Option Nat))
    (hsub : ∀ t ∈ completed, t ∈ af3tasks env input_dir) :
    ∀ x ∈ completed.map (resolveTask env o),
      (∀ r : PredResult, x = Sum.inl r →
        r.sample ∈ (json_files env.listdir input_dir).map sampleName) ∧
      (∀ e : TaskErr, x = Sum.inr e →
        e.sample ∈ (json_files env.listdir input_dir).map sampleName) := by
  intro x hx
  obtain ⟨t, ht, hres⟩ := List.mem_map.mp hx
  have hfile : t.1 ∈ json_files env.listdir input_dir := by
    have := hsub t ht
    have hmem : t.1 ∈ (af3tasks env input_dir).map Prod.fst :=
      List.mem_map.mpr ⟨t, this, rfl⟩
    rwa [af3tasks, map_fst_assignDevices] at hmem
  have hsample : sampleName t.1 ∈ (json_files env.listdir input_dir).map sampleName :=
    List.mem_map.mpr ⟨t.1, hfile, rfl⟩
  constructor
  · intro r hr
    rw [hr] at hres
    cases hexc : env.futureExc t.1 with
    | some m => simp [resolveTask, hexc] at hres
    | none =>
      simp only [resolveTask, hexc] at hres
      have heq := Sum.inl.inj hres
      rw [← heq, run_single_sample]
      exact hsample
  · intro e he
    rw [he] at hres
    cases hexc : env.futureExc t.1 with
    | some m =>
      simp only [resolveTask, hexc] at hres
      have heq := Sum.inr.inj hres
      rw [← heq]
      exact hsample
    | none => simp [resolveTask, hexc] at hres

/-- C7: every dispatched task contributes exactly one terminal outcome —
the four status classifications plus the outcome-resolution exceptions
partition the dispatched set, so their counts sum to the number of
dispatched tasks; dispatched tasks plus validation-rejected `.json`
candidates account for all `.json` candidates; and every record in any of
the collector's buckets carries the sample name of a validated (hence
dispatched) file, so a validation-rejected candidate never reaches a
terminal bucket. -/
theorem outcome_conservation (env : BatchEnv) (input_dir output_dir : String)
    (completed : List (String × Option Nat))
    (hperm : completed.Perm (af3tasks env input_dir)) :
    countStatus "success" (completed.map (resolveTask env output_dir)) +
      countStatus "failed" (completed.map (resolveTask env output_dir)) +
      countStatus "timeout" (completed.map (resolveTask env output_dir)) +
      (countStatus "error" (completed.map (resolveTask env output_dir)) +
        countExc (completed.map (resolveTask env output_dir)))
      = (af3tasks env input_dir).length ∧
    (af3tasks env input_dir).length + (rejectedFiles env.listdir).length
      = (jsonCandidates env.listdir).length ∧
    (∀ r ∈ (collectResults (completed.map (resolveTask env output_dir))).success,
      r.sample ∈ (json_files env.listdir input_dir).map sampleName) ∧
    (∀ r ∈ (collectResults (completed.map (resolveTask env output_dir))).failed,
      r.sample ∈ (json_files env.listdir input_dir).map sampleName) ∧
    (∀ e ∈ (collectResults (completed.map (resolveTask env output_dir))).errors,
      e.sample ∈ (json_files env.listdir input_dir).map sampleName) := by
  have hsub : ∀ t ∈ completed, t ∈ af3tasks env input_dir :=
    fun t ht => hperm.mem_iff.mp ht
  have hmem := resolveTask_sample_mem env input_dir output_dir completed hsub
  refine ⟨?_, ?_, ?_, ?_, ?_⟩
  · have hpart := countStatus_partition (completed.map (resolveTask env output_dir))
      (resolveTask_status_cases env output_dir completed)
    rw [List.length_map, hperm.length_eq] at hpart
    omega
  · rw [af3tasks, length_assignDevices]
    exact valid_plus_rejected env.listdir input_dir
  · intro r hr
    rw [collectResults_eq] at hr
    obtain ⟨x, hx, hfx⟩ := List.mem_filterMap.mp hr
    have hx' : x = Sum.inl r := by
      cases x with
      | inl r' =>
        simp only [succOf] at hfx
        split at hfx
        · exact congrArg Sum.inl (Option.some.inj hfx)
        · exact absurd hfx (by simp)
      | inr e => exact absurd hfx (by simp [succOf])
    exact (hmem x hx).1 r hx'
  · intro r hr
    rw [collectResults_eq] at hr
    obtain ⟨x, hx, hfx⟩ := List.mem_filterMap.mp hr
    have hx' : x = Sum.inl r := by
      cases x with
      | inl r' =>
        simp only [failOf] at hfx
        split at hfx
        · exact absurd hfx (by simp)
        · exact congrArg Sum.inl (Option.some.inj hfx)
      | inr e => exact absurd hfx (by simp [failOf])
    exact (hmem x hx).1 r hx'
  · intro e he
    rw [collectResults_eq] at he
    obtain ⟨x, hx, hfx⟩ := List.mem_filterMap.mp he
    have hx' : x = Sum.inr e := by
      cases x with
      | inl r' => exact absurd hfx (by simp [excOf])
      | inr e' =>
        simp only [excOf] at hfx
        exact congrArg Sum.inr (Option.some.inj hfx)
    exact (hmem x hx).2 e hx'

theorem outcome_conservation_witness :
    countStatus "success" ((af3tasks c7Batch "in").map (resolveTask c7Batch "out")) +
      countStatus "failed" ((af3tasks c7Batch "in").map (resolveTask c7Batch "out")) +
      countStatus "timeout" ((af3tasks c7Batch "in").map (resolveTask c7Batch "out")) +
      (countStatus "error" ((af3tasks c7Batch "in").map (resolveTask c7Batch "out")) +
        countExc ((af3tasks c7Batch "in").map (resolveTask c7Batch "out")))
      = (af3tasks c7Batch "in").length ∧
    (af3tasks c7Batch "in").length + (rejectedFiles c7Batch.listdir).length
      = (jsonCandidates c7Batch.listdir).length :=
  ⟨(outcome_conservation c7Batch "in" "out" (af3tasks c7Batch "in")
      (List.Perm.refl _)).1,
   (outcome_conservation c7Batch "in" "out" (af3tasks c7Batch "in")
      (List.Perm.refl _)).2.1⟩

/-- C1 (the code is at fault here): on an outcome set with zero dispatched
tasks, `generate_summary_report` does evaluate the division — Python raises
`ZeroDivisionError` at the success-rate line, aborting the partially
written report instead of reporting "no tasks"; for any outcome set with a
positive total the report is produced and its success rate equals
`succeeded/total*100`. -/
theorem generate_summary_report_rate :
    generate_summary_report ⟨[], [], []⟩ = Except.error "ZeroDivisionError" ∧
    ∀ results : Results, 0 < totalTasks results →
      ∃ rep : SummaryReport, generate_summary_report results = Except.ok rep ∧
        rep.success_rate
          = (results.success.length : ℚ) / (totalTasks results : ℚ) * 100 ∧
        rep.total_tasks = totalTasks results ∧
        rep.success_count = results.success.length := by
  refine ⟨rfl, ?_⟩
  intro results h
  have hne : totalTasks results ≠ 0 := Nat.pos_iff_ne_zero.mp h
  simp only [generate_summary_report, if_neg hne]
  exact ⟨_, rfl, rfl, rfl, rfl⟩

theorem generate_summary_report_rate_witness :
    0 < totalTasks oneResults ∧
    ∃ rep : SummaryReport, generate_summary_report oneResults = Except.ok rep ∧
      rep.success_rate
        = (oneResults.success.length : ℚ) / (totalTasks oneResults : ℚ) * 100 ∧
      rep.total_tasks = totalTasks oneResults ∧
      rep.success_count = oneResults.success.length :=
  ⟨by decide, generate_summary_report_rate.2 oneResults (by decide)⟩

/-- C6 counterexample: with the executable present but the input directory
missing, the run does end with exit code 1 and dispatches nothing — but the
report file is created (and then abandoned mid-write when the report
generator hits the ZeroDivisionError on the empty outcome set),
contradicting the claim that no report is written. -/
theorem missing_input_dir_creates_report :
    mainRun ⟨false, [], .notFound, some 8, fun _ => .raises "", fun _ => none⟩
      true "in" "out" [] = ⟨1, true, false⟩ := by
  rfl

/-- C6 (amended): a missing executable path exits with code 1 before
dispatch with no report file; a missing input directory — and likewise an
input directory with no valid job file — also dispatches nothing and ends
with exit code 1, but via the report generator's division-by-zero, so a
(partial) report file does exist; when at least one job is dispatched the
program exits with code 0 and a completed report, even when individual jobs
fail. -/
theorem mainRun_exit_codes (env : BatchEnv) (input_dir output_dir : String)
    (completed : List (String × Option Nat)) :
    (mainRun env false input_dir output_dir completed = ⟨1, false, false⟩) ∧
    (env.inputDirExists = false →
      mainRun env true input_dir output_dir completed = ⟨1, true, false⟩) ∧
    (json_files env.listdir input_dir = [] →
      mainRun env true input_dir output_dir completed = ⟨1, true, false⟩) ∧
    (env.inputDirExists = true → completed.Perm (af3tasks env input_dir) →
      completed ≠ [] →
      mainRun env true input_dir output_dir completed = ⟨0, true, true⟩) := by
  refine ⟨rfl, ?_, ?_, ?_⟩
  · intro hdir
    simp [mainRun, run_batch_predictions, hdir, generate_summary_report, totalTasks]
  · intro hjson
    by_cases hdir : env.inputDirExists = false <;>
      simp [mainRun, run_batch_predictions, hdir, hjson, generate_summary_report,
        totalTasks]
  · intro hdir hperm hne
    have htasks_ne : af3tasks env input_dir ≠ [] := by
      intro h0
      rw [h0] at hperm
      exact hne (List.length_eq_zero.mp (by simpa using hperm.length_eq))
    have hjson_ne : json_files env.listdir input_dir ≠ [] := by
      intro hj
      exact htasks_ne (by simp [af3tasks, hj, assignDevices, assignDevicesFrom])
    have hres : run_batch_predictions env input_dir output_dir completed
        = collectResults (completed.map (resolveTask env output_dir)) := by
      simp [run_batch_predictions, hdir, hjson_ne]
    have hpos : totalTasks (collectResults
        (completed.map (resolveTask env output_dir))) ≠ 0 := by
      rw [totalTasks_collectResults, List.length_map]
      intro h0
      exact hne (List.length_eq_zero.mp h0)
    simp [mainRun, hres, generate_summary_report, hpos]

theorem mainRun_exit_codes_witness :
    af3tasks c6Batch "in" ≠ [] ∧
    mainRun c6Batch true "in" "out" (af3tasks c6Batch "in") = ⟨0, true, true⟩ :=
  ⟨by decide,
   (mainRun_exit_codes c6Batch "in" "out" (af3tasks c6Batch "in")).2.2.2 rfl
     (List.Perm.refl _) (by decide)⟩
